import Mathlib

/-!
Verification of the libfabric Rust binding build pipeline
(src/bindings/rust/build.rs) against its specification.

The build script is shallowly embedded: the two bindgen naming callbacks
become pure functions on strings, and the build orchestration (`main` and
`build_libfabric`) becomes a pure function from an abstract build
environment to a trace of external effects plus a success flag.
-/

/-- The kinds of parsed items reported by the bindgen callback interface
(bindgen::callbacks::ItemKind). `Ty` stands for the `Type` variant. -/
inductive ItemKind where
  | Module
  | Ty
  | Function
  | Var
deriving DecidableEq, Repr

/-- bindgen::callbacks::ItemInfo: the name of a parsed item and its kind. -/
structure ItemInfo where
  name : String
  kind : ItemKind
deriving DecidableEq, Repr

/-- Embedding of Rust `str::starts_with("_")`: true iff the first character
is the marker character. -/
def rustStartsWithUnderscore (s : String) : Bool :=
  match s.data with
  | [] => false
  | c :: _ => c = '_'

/-- Embedding of Rust `str::strip_prefix("_")` for the single-character
pattern: when the string begins with the marker it returns the remainder,
otherwise it returns nothing. -/
def rustStripUnderscore (s : String) : Option String :=
  match s.data with
  | [] => none
  | c :: rest => if c = '_' then some (String.mk rest) else none

namespace RenameFunctions

/-- build.rs, `RenameFunctions::item_name`:
`original_name.name.strip_prefix("_").map(String::from)`. -/
def item_name (original_name : ItemInfo) : Option String :=
  (rustStripUnderscore original_name.name).map (fun t => t)

/-- build.rs, `RenameFunctions::generated_link_name_override`: for
function items whose name carries the marker, return the raw name as the
link-name override; otherwise no override. -/
def generated_link_name_override (item_info : ItemInfo) : Option String :=
  match item_info.kind with
  | ItemKind.Function =>
      if rustStartsWithUnderscore item_info.name then some item_info.name
      else none
  | _ => none

end RenameFunctions

/-- The display name bindgen emits for an item: the answer of the callback when
it renames, the raw name when the callback returns no rename. -/
def displayName (info : ItemInfo) : String :=
  match RenameFunctions.item_name info with
  | some n => n
  | none => info.name


theorem underscore_append_data (rest : List Char) :
    ("_" ++ String.mk rest : String) = String.mk ('_' :: rest) := rfl

/-- Claim C1: for every identifier beginning with the marker character,
item_name returns the identifier with exactly one leading marker removed
and no other characters changed (so prepending the marker recovers the
original); for every identifier not beginning with it, item_name performs
no rename. -/
theorem item_name_strip_behavior (s : String) (k : ItemKind) :
    (rustStartsWithUnderscore s = true →
      ∃ t, RenameFunctions.item_name ⟨s, k⟩ = some t ∧ "_" ++ t = s) ∧
    (rustStartsWithUnderscore s = false →
      RenameFunctions.item_name ⟨s, k⟩ = none) := by
  obtain ⟨data⟩ := s
  cases data with
  | nil =>
    refine ⟨fun h => ?_, fun _ => rfl⟩
    simp [rustStartsWithUnderscore] at h
  | cons c rest =>
    by_cases hc : c = '_'
    · subst hc
      refine ⟨fun _ => ⟨String.mk rest, ?_, rfl⟩, fun h => ?_⟩
      · simp [RenameFunctions.item_name, rustStripUnderscore]
      · simp [rustStartsWithUnderscore] at h
    · refine ⟨fun h => ?_, fun _ => ?_⟩
      · simp [rustStartsWithUnderscore, hc] at h
      · simp [RenameFunctions.item_name, rustStripUnderscore, hc]

/-- Claim C1 witness: concrete evaluation at a marker-prefixed and an
unprefixed identifier. -/
theorem item_name_strip_behavior_witness :
    (∃ t, RenameFunctions.item_name ⟨"_fi_send", ItemKind.Function⟩ = some t ∧
      "_" ++ t = "_fi_send") ∧
    RenameFunctions.item_name ⟨"fi_close", ItemKind.Function⟩ = none :=
  ⟨(item_name_strip_behavior "_fi_send" ItemKind.Function).1 (by decide),
   (item_name_strip_behavior "fi_close" ItemKind.Function).2 (by decide)⟩

/-- Claim C2: the link-name override is returned exactly for function-kind
items whose name begins with the marker character, and it is the original
marker-prefixed name; unprefixed functions and all non-function items get
no override. -/
theorem link_override_behavior (s : String) :
    (rustStartsWithUnderscore s = true →
      RenameFunctions.generated_link_name_override ⟨s, ItemKind.Function⟩ =
        some s) ∧
    (rustStartsWithUnderscore s = false →
      RenameFunctions.generated_link_name_override ⟨s, ItemKind.Function⟩ =
        none) ∧
    (∀ k : ItemKind, k ≠ ItemKind.Function →
      RenameFunctions.generated_link_name_override ⟨s, k⟩ = none) := by
  refine ⟨fun h => ?_, fun h => ?_, fun k hk => ?_⟩
  · simp [RenameFunctions.generated_link_name_override, h]
  · simp [RenameFunctions.generated_link_name_override, h]
  · cases k with
    | Function => exact absurd rfl hk
    | Module => rfl
    | Ty => rfl
    | Var => rfl

/-- Claim C2 witness: concrete evaluation at a marker-prefixed function, an
unprefixed function, and a marker-prefixed non-function. -/
theorem link_override_behavior_witness :
    RenameFunctions.generated_link_name_override
      ⟨"_fi_send", ItemKind.Function⟩ = some "_fi_send" ∧
    RenameFunctions.generated_link_name_override
      ⟨"fi_close", ItemKind.Function⟩ = none ∧
    RenameFunctions.generated_link_name_override
      ⟨"_fi_info", ItemKind.Ty⟩ = none :=
  ⟨(link_override_behavior "_fi_send").1 (by decide),
   (link_override_behavior "fi_close").2.1 (by decide),
   (link_override_behavior "_fi_info").2.2 ItemKind.Ty (by decide)⟩

/-- Claim C3: round-trip of the two naming transforms for a marker-prefixed
function symbol S: the link-time reference is S itself, and prepending the
marker character to the display name recovers S exactly (so the display
name is S with one leading marker removed). -/
theorem naming_round_trip (s : String) (h : rustStartsWithUnderscore s = true) :
    RenameFunctions.generated_link_name_override ⟨s, ItemKind.Function⟩ =
      some s ∧
    "_" ++ displayName ⟨s, ItemKind.Function⟩ = s := by
  constructor
  · simp [RenameFunctions.generated_link_name_override, h]
  · obtain ⟨data⟩ := s
    cases data with
    | nil => simp [rustStartsWithUnderscore] at h
    | cons c rest =>
      have hc : c = '_' := by
        by_contra hc
        simp [rustStartsWithUnderscore, hc] at h
      subst hc
      simp [displayName, RenameFunctions.item_name, rustStripUnderscore]
      rfl

/-- Claim C3 witness: concrete round trip at the shim symbol _fi_send. -/
theorem naming_round_trip_witness :
    rustStartsWithUnderscore "_fi_send" = true ∧
    (RenameFunctions.generated_link_name_override
        ⟨"_fi_send", ItemKind.Function⟩ = some "_fi_send" ∧
      "_" ++ displayName ⟨"_fi_send", ItemKind.Function⟩ = "_fi_send") :=
  ⟨by decide, naming_round_trip "_fi_send" (by decide)⟩

/-- Claim C10: the display rename is applied uniformly to every item kind:
item_name never inspects the kind, every marker-prefixed identifier is
stripped by one marker regardless of kind, and the one-character
identifier consisting of the marker alone maps to the empty string. -/
theorem item_name_kind_uniform (s : String) (k k₂ : ItemKind) :
    RenameFunctions.item_name ⟨s, k⟩ = RenameFunctions.item_name ⟨s, k₂⟩ ∧
    (rustStartsWithUnderscore s = true →
      ∃ t, RenameFunctions.item_name ⟨s, k⟩ = some t ∧ "_" ++ t = s) ∧
    RenameFunctions.item_name ⟨"_", k⟩ = some "" := by
  refine ⟨rfl, fun h => ?_, rfl⟩
  obtain ⟨data⟩ := s
  cases data with
  | nil => simp [rustStartsWithUnderscore] at h
  | cons c rest =>
    have hc : c = '_' := by
      by_contra hc
      simp [rustStartsWithUnderscore, hc] at h
    subst hc
    refine ⟨String.mk rest, ?_, rfl⟩
    simp [RenameFunctions.item_name, rustStripUnderscore]

/-- Claim C10 witness: concrete evaluation at a marker-prefixed type-kind
identifier and at the bare marker identifier. -/
theorem item_name_kind_uniform_witness :
    RenameFunctions.item_name ⟨"_fi_info", ItemKind.Ty⟩ =
      RenameFunctions.item_name ⟨"_fi_info", ItemKind.Function⟩ ∧
    (∃ t, RenameFunctions.item_name ⟨"_fi_info", ItemKind.Ty⟩ = some t ∧
      "_" ++ t = "_fi_info") ∧
    RenameFunctions.item_name ⟨"_", ItemKind.Ty⟩ = some "" :=
  ⟨(item_name_kind_uniform "_fi_info" ItemKind.Ty ItemKind.Function).1,
   (item_name_kind_uniform "_fi_info" ItemKind.Ty ItemKind.Function).2.1
     (by decide),
   (item_name_kind_uniform "_fi_info" ItemKind.Ty ItemKind.Function).2.2⟩

/-! ## The build pipeline

`main` and `build_libfabric` are embedded as pure functions from an
abstract build environment (feature flag, environment variables, the
filesystem fact the script queries, external-process exit statuses, and
the pkg-config probe outcome) to the ordered trace of external effects the
script performs, together with a success flag (`false` means the script
panicked at that point: `assert!`, `unwrap` or `expect`). -/

/-- Whether a path string already ends with the separator. -/
def endsWithSlash (s : String) : Bool :=
  match s.data.getLast? with
  | some c => c = '/'
  | none => false

/-- Embedding of Rust `Path::join` on displayed paths: a separator is
inserted unless the left side already ends with one. -/
def pathJoin (a b : String) : String :=
  if endsWithSlash a then a ++ b else a ++ "/" ++ b

/-- One externally visible effect of the build script. -/
inductive Event where
  /-- A `Command::new(program)` invocation with the given arguments, run in the given
  working directory (`none` = inherited). -/
  | RunCommand (program : String) (args : List String) (cwd : Option String)
  /-- A `println!` line on stdout (cargo directive channel). -/
  | CargoDirective (line : String)
  /-- An `eprintln!` diagnostic line on stderr (build-log channel). -/
  | Progress (line : String)
  /-- The `cc::Build::compile("wrapper")` step on the given source file with the
  given include directories, in order. -/
  | CompileShim (sourceFile : String) (includeDirs : List String)
  /-- The `bindgen::Builder::generate()` step with the given clang arguments. -/
  | GenerateBindings (clangArgs : List String)
  /-- The `Bindings::write_to_file` step at the given path. -/
  | WriteBindings (path : String)
deriving DecidableEq, Repr

/-- Trace of effects performed, and whether the script reached this point
without panicking. -/
structure RunResult where
  events : List Event
  success : Bool
deriving DecidableEq, Repr

/-- The abstract build environment one run of the script observes. -/
structure Env where
  /-- The `OUT_DIR` environment variable. -/
  out_dir : String
  /-- The `CARGO_MANIFEST_DIR` environment variable. -/
  manifest_dir : String
  /-- The `cfg!` vendored feature flag. -/
  vendored : Bool
  /-- Whether `OUT_DIR/libfabric` already exists when the script checks. -/
  libfabric_rsync_dir_exists : Bool
  /-- Exit status of the rsync staging copy. The script never consults it:
  `expect` only guards failure to launch the process. -/
  rsync_status_ok : Bool
  /-- Exit status of `sh autogen.sh`. -/
  autogen_ok : Bool
  /-- Exit status of `sh configure --prefix=...`. -/
  configure_ok : Bool
  /-- Exit status of `make -j install`. -/
  make_ok : Bool
  /-- Outcome of the pkg-config probe for "libfabric": `none` when the
  probe errors (the `unwrap` panics), otherwise the include paths the
  package reports. -/
  pkg_include_paths : Option (List String)
  /-- Whether `cc::Build::compile` succeeds. -/
  cc_ok : Bool
  /-- Whether `bindgen` generation succeeds. -/
  bindgen_ok : Bool
  /-- Whether writing `bindings.rs` succeeds. -/
  write_ok : Bool
deriving DecidableEq, Repr

/-- The rsync staging command, build.rs lines 42-51. -/
def rsyncCommand (out_dir : String) : Event :=
  Event.RunCommand "rsync"
    ["-av", "--exclude=\x27libfabric\x27",
     pathJoin "../../../../" "libfabric",
     out_dir ++ "/"] none

/-- The autogen bootstrap command, build.rs lines 56-61. -/
def autogenCommand (libfabric_rsync_dir : String) : Event :=
  Event.RunCommand "sh" ["autogen.sh"] (some libfabric_rsync_dir)

/-- The configure command, build.rs lines 69-75. -/
def configureCommand (install_dir libfabric_rsync_dir : String) : Event :=
  Event.RunCommand "sh" ["configure", "--prefix=" ++ install_dir]
    (some libfabric_rsync_dir)

/-- The make-install command, build.rs lines 79-85. -/
def makeInstallCommand (libfabric_rsync_dir : String) : Event :=
  Event.RunCommand "make" ["-j", "install"] (some libfabric_rsync_dir)

/-- Embedding of `build_libfabric` (build.rs lines 35-88): stage the
source by rsync unless the staging directory already exists (the rsync
exit status is not consulted), then run autogen, configure with
`--prefix=OUT_DIR/install`, and `make -j install`, each guarded by
`assert!(....success())`. -/
def build_libfabric (env : Env) (out_dir libfabric_rsync_dir : String) :
    RunResult :=
  let install_dir := pathJoin out_dir "install"
  let staging :=
    if env.libfabric_rsync_dir_exists then [] else [rsyncCommand out_dir]
  let events := staging ++
    [Event.Progress "Run autogen.sh as part of libfabric compilation.",
     autogenCommand libfabric_rsync_dir]
  if env.autogen_ok = false then ⟨events, false⟩
  else
    let events := events ++
      [Event.Progress "Run configure as part of libfabric compilation.",
       configureCommand install_dir libfabric_rsync_dir]
    if env.configure_ok = false then ⟨events, false⟩
    else
      let events := events ++
        [Event.Progress "Run make install as part of libfabric compilation.",
         makeInstallCommand libfabric_rsync_dir]
      if env.make_ok = false then ⟨events, false⟩
      else
        ⟨events ++ [Event.Progress "Libfabric successfully compiled."], true⟩

/-- Embedding of the tail of `main` (build.rs lines 131-164): compile the
wrapper shim against the resolved include paths, then run bindgen with the
same paths as `-I` arguments plus the fixed clang flags, then write
`bindings.rs` under `OUT_DIR`. -/
def finishBuild (env : Env) (include_paths : List String) : RunResult :=
  let shim :=
    Event.CompileShim (env.manifest_dir ++ "/wrapper.c") include_paths
  if env.cc_ok = false then ⟨[shim], false⟩
  else
    let gen := Event.GenerateBindings
      (include_paths.map (fun dir => "-I" ++ dir) ++
        ["-fno-inline-functions",
         "-Wno-error=implicit-function-declaration",
         "-Wno-error=int-conversion"])
    if env.bindgen_ok = false then ⟨[shim, gen], false⟩
    else
      let write :=
        Event.WriteBindings (pathJoin env.out_dir "bindings.rs")
      if env.write_ok = false then ⟨[shim, gen, write], false⟩
      else ⟨[shim, gen, write], true⟩

/-- Embedding of `main` (build.rs lines 90-165). Vendored mode: run the
vendored build, emit the link-search directive for `OUT_DIR/install/lib`,
and use the five staged-tree/staged-install include paths. System mode:
emit the link-lib directive, probe pkg-config and use the reported include
paths unchanged. Either way, finish with shim compile, bindgen, and the
write of `bindings.rs`. -/
def mainRun (env : Env) : RunResult :=
  if env.vendored then
    let out_dir := env.out_dir
    let install_dir := pathJoin out_dir "install"
    let libfabric_rsync_dir := pathJoin out_dir "libfabric"
    let built := build_libfabric env out_dir libfabric_rsync_dir
    if built.success = false then built
    else
      let link := Event.CargoDirective
        ("cargo:rustc-link-search=" ++ install_dir ++ "/lib")
      let include_paths :=
        [libfabric_rsync_dir,
         pathJoin libfabric_rsync_dir "include",
         pathJoin (pathJoin libfabric_rsync_dir "include") "rdma",
         pathJoin (pathJoin libfabric_rsync_dir "install") "include",
         pathJoin (pathJoin (pathJoin libfabric_rsync_dir "install")
           "include") "rdma"]
      let rest := finishBuild env include_paths
      ⟨built.events ++ link :: rest.events, rest.success⟩
  else
    let link := Event.CargoDirective "cargo:rustc-link-lib=fabric"
    match env.pkg_include_paths with
    | none => ⟨[link], false⟩
    | some include_paths =>
      let rest := finishBuild env include_paths
      ⟨link :: rest.events, rest.success⟩

/-- The textual lines a run emits (stdout cargo directives and stderr
diagnostics), in order. -/
def emittedLines (events : List Event) : List String :=
  events.filterMap fun e =>
    match e with
    | Event.CargoDirective s => some s
    | Event.Progress s => some s
    | _ => none

/-- Whether the first list is an initial run of the second. -/
def charsBeginWith : List Char → List Char → Bool
  | [], _ => true
  | _ :: _, [] => false
  | a :: ps, b :: ss => a = b && charsBeginWith ps ss

/-- Whether the first list occurs contiguously anywhere in the second. -/
def charsOccurIn : List Char → List Char → Bool
  | p, [] => charsBeginWith p []
  | p, c :: ss => charsBeginWith p (c :: ss) || charsOccurIn p ss

/-- A fully successful SystemInstalled-mode environment whose pkg-config
probe reports the single include root /usr/include. -/
def envSystemOneRoot : Env :=
  { out_dir := "/o", manifest_dir := "/m", vendored := false,
    libfabric_rsync_dir_exists := false, rsync_status_ok := true,
    autogen_ok := true, configure_ok := true, make_ok := true,
    pkg_include_paths := some ["/usr/include"], cc_ok := true,
    bindgen_ok := true, write_ok := true }

/-- Like `envSystemOneRoot` but the probe reports two include roots. -/
def envSystemTwoRoots : Env :=
  { envSystemOneRoot with pkg_include_paths := some ["/a", "/b"] }

/-- Like `envSystemOneRoot` but the probe itself fails. -/
def envSystemProbeFail : Env :=
  { envSystemOneRoot with pkg_include_paths := none }

/-- A fully successful Vendored-mode environment with the staging
directory initially absent. -/
def envVendoredFresh : Env :=
  { envSystemOneRoot with vendored := true, pkg_include_paths := none }

/-- The shim-compile event is always the first effect of the tail of the
build, whatever the downstream exit flags are. -/
theorem shim_mem_finishBuild (env : Env) (incs : List String) :
    Event.CompileShim (env.manifest_dir ++ "/wrapper.c") incs ∈
      (finishBuild env incs).events := by
  cases hc : env.cc_ok <;> cases hb : env.bindgen_ok <;>
    cases hw : env.write_ok <;> simp [finishBuild, hc, hb, hw]

/-- Claim C4 counterexample: in SystemInstalled mode with the single
include root /usr/include, the trace of the whole run passes exactly
[/usr/include] — one entry, not the three entries
[/usr/include, /usr/include/rdma, /usr/include/rdma/providers] the claim
requires. -/
theorem system_mode_single_root_counterexample :
    (mainRun envSystemOneRoot).events =
      [Event.CargoDirective "cargo:rustc-link-lib=fabric",
       Event.CompileShim "/m/wrapper.c" ["/usr/include"],
       Event.GenerateBindings
         ["-I/usr/include", "-fno-inline-functions",
          "-Wno-error=implicit-function-declaration",
          "-Wno-error=int-conversion"],
       Event.WriteBindings "/o/bindings.rs"] ∧
    ["/usr/include"] ≠
      ["/usr/include", "/usr/include/rdma", "/usr/include/rdma/providers"] :=
  ⟨rfl, by decide⟩

/-- Claim C4 as amended: in SystemInstalled mode the include paths
reported by pkg-config are handed to the shim compiler and binding
generator unchanged — a single reported root R yields the one-entry path
[R]; no rdma or rdma/providers subdirectories are derived. -/
theorem system_mode_paths_passed_unchanged (env : Env) (roots : List String)
    (hv : env.vendored = false) (hp : env.pkg_include_paths = some roots) :
    (mainRun env).events =
      Event.CargoDirective "cargo:rustc-link-lib=fabric" ::
        (finishBuild env roots).events ∧
    Event.CompileShim (env.manifest_dir ++ "/wrapper.c") roots ∈
      (mainRun env).events := by
  have htrace : (mainRun env).events =
      Event.CargoDirective "cargo:rustc-link-lib=fabric" ::
        (finishBuild env roots).events := by
    simp [mainRun, hv, hp]
  refine ⟨htrace, ?_⟩
  rw [htrace]
  exact List.mem_cons_of_mem _ (shim_mem_finishBuild env roots)

/-- Claim C4 amended witness: concrete evaluation at the one-root
environment. -/
theorem system_mode_paths_passed_unchanged_witness :
    (mainRun envSystemOneRoot).events =
      Event.CargoDirective "cargo:rustc-link-lib=fabric" ::
        (finishBuild envSystemOneRoot ["/usr/include"]).events ∧
    Event.CompileShim "/m/wrapper.c" ["/usr/include"] ∈
      (mainRun envSystemOneRoot).events :=
  system_mode_paths_passed_unchanged envSystemOneRoot ["/usr/include"]
    rfl rfl

/-- Claim C5 counterexample: in SystemInstalled mode with two reported
include roots the run does not abort: it succeeds and both the shim
compiler and the binding generator are invoked, with both roots passed
through. -/
theorem system_mode_two_roots_counterexample :
    envSystemTwoRoots.pkg_include_paths = some ["/a", "/b"] ∧
    (mainRun envSystemTwoRoots).success = true ∧
    Event.CompileShim "/m/wrapper.c" ["/a", "/b"] ∈
      (mainRun envSystemTwoRoots).events ∧
    Event.GenerateBindings
        ["-I/a", "-I/b", "-fno-inline-functions",
         "-Wno-error=implicit-function-declaration",
         "-Wno-error=int-conversion"] ∈
      (mainRun envSystemTwoRoots).events := by
  decide

/-- Claim C5 as amended: in SystemInstalled mode the pipeline aborts
before the shim compiler and binding generator only when the pkg-config
probe itself fails (package unresolvable); a successful probe is accepted
whatever the number of reported include roots, which are passed on
unchanged. -/
theorem system_mode_abort_only_on_probe_failure (env : Env)
    (hv : env.vendored = false) :
    (env.pkg_include_paths = none →
      mainRun env =
        ⟨[Event.CargoDirective "cargo:rustc-link-lib=fabric"], false⟩) ∧
    (∀ roots, env.pkg_include_paths = some roots →
      Event.CompileShim (env.manifest_dir ++ "/wrapper.c") roots ∈
        (mainRun env).events) := by
  constructor
  · intro hp
    simp [mainRun, hv, hp]
  · intro roots hp
    have htrace : (mainRun env).events =
        Event.CargoDirective "cargo:rustc-link-lib=fabric" ::
          (finishBuild env roots).events := by
      simp [mainRun, hv, hp]
    rw [htrace]
    exact List.mem_cons_of_mem _ (shim_mem_finishBuild env roots)

/-- Claim C5 amended witness: the probe-failure environment aborts with
only the link directive emitted, and the two-root environment reaches the
shim compiler. -/
theorem system_mode_abort_only_on_probe_failure_witness :
    mainRun envSystemProbeFail =
      ⟨[Event.CargoDirective "cargo:rustc-link-lib=fabric"], false⟩ ∧
    Event.CompileShim "/m/wrapper.c" ["/a", "/b"] ∈
      (mainRun envSystemTwoRoots).events :=
  ⟨(system_mode_abort_only_on_probe_failure envSystemProbeFail rfl).1 rfl,
   (system_mode_abort_only_on_probe_failure envSystemTwoRoots rfl).2
     ["/a", "/b"] rfl⟩

/-- Claim C6: evaluation of a fresh vendored run. configure is invoked
with the install prefix OUT_DIR/install, but the header search path handed
to the shim compiler contains OUT_DIR/libfabric/install/include (under the
rsync staging directory) and never OUT_DIR/install/include — the include
directory of the prefix actually passed to configure is absent. -/
theorem vendored_install_include_mismatch :
    configureCommand "/o/install" "/o/libfabric" ∈
      (mainRun envVendoredFresh).events ∧
    Event.CompileShim "/m/wrapper.c"
        ["/o/libfabric", "/o/libfabric/include", "/o/libfabric/include/rdma",
         "/o/libfabric/install/include",
         "/o/libfabric/install/include/rdma"] ∈
      (mainRun envVendoredFresh).events ∧
    "/o/install/include" ∉
      ["/o/libfabric", "/o/libfabric/include", "/o/libfabric/include/rdma",
       "/o/libfabric/install/include",
       "/o/libfabric/install/include/rdma"] ∧
    (mainRun envVendoredFresh).success = true := by
  decide

/-- Like `envVendoredFresh` but the rsync staging copy exits with a
failure status. -/
def envRsyncFail : Env :=
  { envVendoredFresh with rsync_status_ok := false }

/-- Claim C7 counterexample: the exit status of the staging copy is not
checked. With the rsync command reporting failure, the build still runs
bootstrap, configure and install, and the whole run succeeds. -/
theorem rsync_status_unchecked_counterexample :
    envRsyncFail.rsync_status_ok = false ∧
    rsyncCommand "/o" ∈ (mainRun envRsyncFail).events ∧
    (mainRun envRsyncFail).success = true ∧
    autogenCommand "/o/libfabric" ∈ (mainRun envRsyncFail).events ∧
    configureCommand "/o/install" "/o/libfabric" ∈
      (mainRun envRsyncFail).events ∧
    makeInstallCommand "/o/libfabric" ∈ (mainRun envRsyncFail).events := by
  decide

/-- Claim C7 as amended: the outcome of the vendored build is independent
of the exit status of the staging copy (it is never consulted), while the
bootstrap, configure, and install exit statuses are each checked: a
failure aborts immediately, the trace ending at the failed command with
nothing further run and no cleanup. -/
theorem builder_status_checks (env : Env) (out_dir rsync_dir : String) :
    (∀ b, build_libfabric { env with rsync_status_ok := b } out_dir
        rsync_dir = build_libfabric env out_dir rsync_dir) ∧
    (env.autogen_ok = false →
      build_libfabric env out_dir rsync_dir =
        ⟨(if env.libfabric_rsync_dir_exists then []
            else [rsyncCommand out_dir]) ++
          [Event.Progress "Run autogen.sh as part of libfabric compilation.",
           autogenCommand rsync_dir], false⟩) ∧
    (env.autogen_ok = true → env.configure_ok = false →
      build_libfabric env out_dir rsync_dir =
        ⟨(if env.libfabric_rsync_dir_exists then []
            else [rsyncCommand out_dir]) ++
          [Event.Progress "Run autogen.sh as part of libfabric compilation.",
           autogenCommand rsync_dir,
           Event.Progress "Run configure as part of libfabric compilation.",
           configureCommand (pathJoin out_dir "install") rsync_dir],
         false⟩) ∧
    (env.autogen_ok = true → env.configure_ok = true → env.make_ok = false →
      build_libfabric env out_dir rsync_dir =
        ⟨(if env.libfabric_rsync_dir_exists then []
            else [rsyncCommand out_dir]) ++
          [Event.Progress "Run autogen.sh as part of libfabric compilation.",
           autogenCommand rsync_dir,
           Event.Progress "Run configure as part of libfabric compilation.",
           configureCommand (pathJoin out_dir "install") rsync_dir,
           Event.Progress "Run make install as part of libfabric compilation.",
           makeInstallCommand rsync_dir], false⟩) := by
  obtain ⟨o, m, v, ex, rs, ag, cf, mk, pk, cc, bg, wr⟩ := env
  refine ⟨fun b => rfl, fun ha => ?_, fun ha hc => ?_, fun ha hc hm => ?_⟩
  · subst ha
    cases ex <;> rfl
  · subst ha
    subst hc
    cases ex <;> rfl
  · subst ha
    subst hc
    subst hm
    cases ex <;> rfl

/-- Claim C7 amended witness: concrete evaluation of the three failure
points and of the ignored staging status. -/
theorem builder_status_checks_witness :
    build_libfabric { envVendoredFresh with rsync_status_ok := false }
        "/o" "/o/libfabric" =
      build_libfabric envVendoredFresh "/o" "/o/libfabric" ∧
    build_libfabric { envVendoredFresh with autogen_ok := false }
        "/o" "/o/libfabric" =
      ⟨(if ({ envVendoredFresh with
              autogen_ok := false } : Env).libfabric_rsync_dir_exists
          then [] else [rsyncCommand "/o"]) ++
        [Event.Progress "Run autogen.sh as part of libfabric compilation.",
         autogenCommand "/o/libfabric"], false⟩ :=
  ⟨(builder_status_checks envVendoredFresh "/o" "/o/libfabric").1 false,
   (builder_status_checks { envVendoredFresh with autogen_ok := false }
     "/o" "/o/libfabric").2.1 rfl⟩

/-- Claim C8: when the staging directory already exists no rsync command
is run; the bootstrap command is still run, and the whole remainder of the
vendored build (configure/install attempts included) is exactly what it
would have been after a fresh staging copy — the only difference a fresh
run has is the one rsync command prepended to the trace. -/
theorem staging_skip_idempotent (env : Env) (out_dir rsync_dir : String)
    (h : env.libfabric_rsync_dir_exists = true) :
    (∀ args cwd, Event.RunCommand "rsync" args cwd ∉
      (build_libfabric env out_dir rsync_dir).events) ∧
    autogenCommand rsync_dir ∈
      (build_libfabric env out_dir rsync_dir).events ∧
    build_libfabric { env with libfabric_rsync_dir_exists := false }
        out_dir rsync_dir =
      ⟨rsyncCommand out_dir ::
          (build_libfabric env out_dir rsync_dir).events,
        (build_libfabric env out_dir rsync_dir).success⟩ := by
  obtain ⟨o, m, v, ex, rs, ag, cf, mk, pk, cc, bg, wr⟩ := env
  subst h
  refine ⟨fun args cwd => ?_, ?_, ?_⟩
  · cases ag <;> cases cf <;> cases mk <;>
      simp [build_libfabric, autogenCommand, configureCommand,
        makeInstallCommand]
  · cases ag <;> cases cf <;> cases mk <;>
      simp [build_libfabric]
  · cases ag <;> cases cf <;> cases mk <;> rfl

/-- Claim C8 witness: concrete evaluation at an already-staged
environment. -/
theorem staging_skip_idempotent_witness :
    (∀ args cwd, Event.RunCommand "rsync" args cwd ∉
      (build_libfabric { envVendoredFresh with
        libfabric_rsync_dir_exists := true } "/o" "/o/libfabric").events) ∧
    autogenCommand "/o/libfabric" ∈
      (build_libfabric { envVendoredFresh with
        libfabric_rsync_dir_exists := true } "/o" "/o/libfabric").events ∧
    build_libfabric { ({ envVendoredFresh with
          libfabric_rsync_dir_exists := true } : Env) with
        libfabric_rsync_dir_exists := false } "/o" "/o/libfabric" =
      ⟨rsyncCommand "/o" ::
          (build_libfabric { envVendoredFresh with
            libfabric_rsync_dir_exists := true } "/o" "/o/libfabric").events,
        (build_libfabric { envVendoredFresh with
          libfabric_rsync_dir_exists := true }
          "/o" "/o/libfabric").success⟩ :=
  staging_skip_idempotent
    { envVendoredFresh with libfabric_rsync_dir_exists := true }
    "/o" "/o/libfabric" rfl

theorem emittedLines_cargo (s : String) (es : List Event) :
    emittedLines (Event.CargoDirective s :: es) = s :: emittedLines es :=
  rfl

/-- The tail of the build (shim compile, bindgen, write) emits no textual
lines. -/
theorem emittedLines_finishBuild (env : Env) (incs : List String) :
    emittedLines (finishBuild env incs).events = [] := by
  cases hc : env.cc_ok <;> cases hb : env.bindgen_ok <;>
    cases hw : env.write_ok <;> simp [finishBuild, emittedLines, hc, hb, hw]

/-- Every line the vendored build emits is one of the four fixed
stage-progress messages. -/
theorem emittedLines_build_libfabric (env : Env) (o r : String) :
    ∀ s ∈ emittedLines (build_libfabric env o r).events,
      s ∈ ["Run autogen.sh as part of libfabric compilation.",
           "Run configure as part of libfabric compilation.",
           "Run make install as part of libfabric compilation.",
           "Libfabric successfully compiled."] := by
  cases he : env.libfabric_rsync_dir_exists <;> cases ha : env.autogen_ok <;>
    cases hc : env.configure_ok <;> cases hm : env.make_ok <;>
    simp [build_libfabric, emittedLines, he, ha, hc, hm, rsyncCommand,
      autogenCommand, configureCommand, makeInstallCommand]

/-- In vendored mode the trace is the vendored-build trace, followed (when
that build succeeded) by the link-search directive and the lineless tail
of the build. -/
theorem mainRun_vendored_events (env : Env) (hv : env.vendored = true) :
    (mainRun env).events =
      (build_libfabric env env.out_dir
        (pathJoin env.out_dir "libfabric")).events ∨
    ∃ incs, (mainRun env).events =
      (build_libfabric env env.out_dir
          (pathJoin env.out_dir "libfabric")).events ++
        Event.CargoDirective
            ("cargo:rustc-link-search=" ++ pathJoin env.out_dir "install" ++
              "/lib") ::
          (finishBuild env incs).events := by
  cases hb : (build_libfabric env env.out_dir
      (pathJoin env.out_dir "libfabric")).success with
  | false =>
    left
    simp [mainRun, hv, hb]
  | true =>
    right
    refine ⟨[pathJoin env.out_dir "libfabric",
      pathJoin (pathJoin env.out_dir "libfabric") "include",
      pathJoin (pathJoin (pathJoin env.out_dir "libfabric") "include")
        "rdma",
      pathJoin (pathJoin (pathJoin env.out_dir "libfabric") "install")
        "include",
      pathJoin (pathJoin (pathJoin (pathJoin env.out_dir "libfabric")
        "install") "include") "rdma"], ?_⟩
    simp [mainRun, hv, hb]

/-- Claim C9 counterexample: in SystemInstalled mode with resolved
directory /usr/include, that directory is handed to the shim compiler but
the entire textual output of the run is the single link directive, in which the
directory does not even occur as a substring — no resolved directory is
ever reported. -/
theorem no_dir_report_counterexample :
    Event.CompileShim "/m/wrapper.c" ["/usr/include"] ∈
      (mainRun envSystemOneRoot).events ∧
    emittedLines (mainRun envSystemOneRoot).events =
      ["cargo:rustc-link-lib=fabric"] ∧
    charsOccurIn "/usr/include".data
      "cargo:rustc-link-lib=fabric".data = false := by
  decide

/-- Claim C9 as amended: resolved header directories are never reported.
In SystemInstalled mode the textual output of the run is exactly the
link-lib directive whatever directories were resolved; in Vendored mode
every emitted line is one of the four fixed stage-progress messages or the
link-search directive, none of which is a header-directory report. -/
theorem emitted_lines_fixed (env : Env) :
    (env.vendored = false →
      emittedLines (mainRun env).events = ["cargo:rustc-link-lib=fabric"]) ∧
    (env.vendored = true →
      ∀ s ∈ emittedLines (mainRun env).events,
        s ∈ ["Run autogen.sh as part of libfabric compilation.",
             "Run configure as part of libfabric compilation.",
             "Run make install as part of libfabric compilation.",
             "Libfabric successfully compiled.",
             "cargo:rustc-link-search=" ++ pathJoin env.out_dir "install" ++
               "/lib"]) := by
  constructor
  · intro hv
    cases hp : env.pkg_include_paths with
    | none =>
      have hm : mainRun env =
          ⟨[Event.CargoDirective "cargo:rustc-link-lib=fabric"], false⟩ := by
        simp [mainRun, hv, hp]
      rw [hm]
      rfl
    | some roots =>
      have htrace : (mainRun env).events =
          Event.CargoDirective "cargo:rustc-link-lib=fabric" ::
            (finishBuild env roots).events := by
        simp [mainRun, hv, hp]
      rw [htrace, emittedLines_cargo, emittedLines_finishBuild]
  · intro hv s hs
    rcases mainRun_vendored_events env hv with htr | ⟨incs, htr⟩
    · rw [htr] at hs
      have := emittedLines_build_libfabric env env.out_dir
        (pathJoin env.out_dir "libfabric") s hs
      simp only [List.mem_cons, List.not_mem_nil, or_false] at this ⊢
      tauto
    · rw [htr] at hs
      rw [emittedLines] at hs
      rw [List.filterMap_append] at hs
      rcases List.mem_append.mp hs with h1 | h2
      · have := emittedLines_build_libfabric env env.out_dir
          (pathJoin env.out_dir "libfabric") s h1
        simp only [List.mem_cons, List.not_mem_nil, or_false] at this ⊢
        tauto
      · have h2' : s ∈
            ("cargo:rustc-link-search=" ++ pathJoin env.out_dir "install" ++
              "/lib") :: emittedLines (finishBuild env incs).events := h2
        rw [emittedLines_finishBuild] at h2'
        simp only [List.mem_cons, List.not_mem_nil, or_false] at h2' ⊢
        tauto

/-- Claim C9 amended witness: concrete evaluation in both modes. -/
theorem emitted_lines_fixed_witness :
    emittedLines (mainRun envSystemOneRoot).events =
      ["cargo:rustc-link-lib=fabric"] ∧
    "Libfabric successfully compiled." ∈
      ["Run autogen.sh as part of libfabric compilation.",
       "Run configure as part of libfabric compilation.",
       "Run make install as part of libfabric compilation.",
       "Libfabric successfully compiled.",
       "cargo:rustc-link-search=" ++
         pathJoin envVendoredFresh.out_dir "install" ++ "/lib"] :=
  ⟨(emitted_lines_fixed envSystemOneRoot).1 rfl,
   (emitted_lines_fixed envVendoredFresh).2 rfl
     "Libfabric successfully compiled." (by decide)⟩
